import Mathlib

/-!
Verification of the task-ingestion and asset-retrieval core of the WebODM
repository (src/app/api/tasks.py) against its natural-language specification.
Files are modelled as lists of bytes (`List Nat`), the persisted task store as
a function from task id to task record together with a worker-queue log, and
each HTTP handler as a pure function returning the new store and an outcome.
-/

namespace WebODM

/-- One chunk request of the resumable upload protocol
(TaskAssetsImport.post, src/app/api/tasks.py lines 425-456): the parsed
dzchunkindex, dzchunkbyteoffset and dztotalchunkcount fields plus the
uploaded bytes. -/
structure ChunkReq where
  chunkIndex : Int
  byteOffset : Int
  totalChunkCount : Int
  data : List Nat
deriving DecidableEq

/-- Embeds the chunk-write block of TaskAssetsImport.post
(src/app/api/tasks.py lines 442-453).  When `chunkIndex == 0` and the temp
file exists it is unlinked first (line 443-444).  The file is then opened
with mode ab (line 446): in append mode every write lands at end-of-file,
so the following fd.seek(byte_offset) at line 447 has no effect on the
write position and the chunk bytes are appended.  `tmp` is the temp file
content, `none` when the file does not exist yet. -/
def writeChunkCode (tmp : Option (List Nat)) (chunkIndex : Int)
    (byteOffset : Int) (data : List Nat) : List Nat :=
  let afterUnlink : Option (List Nat) :=
    if tmp.isSome && chunkIndex == 0 then none else tmp
  afterUnlink.getD [] ++ data

/-- Modelled from the spec, section 4.2: writeChunk "writes `data` at
`byteOffset` (seek-then-write semantics, not append)".  The file is
zero-extended when the offset lies past end-of-file, as a POSIX seek
followed by a write would do. -/
def seekWrite (file : List Nat) (off : Nat) (data : List Nat) : List Nat :=
  (file ++ List.replicate (off - file.length) 0).take off
    ++ data ++ file.drop (off + data.length)

/-- Runs a list of chunk requests through the code semantics, starting from
temp-file state `tmp`.  After each write, the handler finalizes (moves the
temp file into the task's storage, lines 455-456 and 478-480) unless
`chunk_index + 1 < total_chunk_count`; the result is the finalized file
content, or `none` when the delivery list ends without finalization. -/
def uploadRunCode : Option (List Nat) → List ChunkReq → Option (List Nat)
  | _, [] => none
  | tmp, r :: rs =>
    let f := writeChunkCode tmp r.chunkIndex r.byteOffset r.data
    if r.chunkIndex + 1 < r.totalChunkCount then
      uploadRunCode (some f) rs
    else
      some f

/-- Python int() applied to one decimal digit. -/
def decDigit (c : Char) : Option Nat :=
  if '0' ≤ c ∧ c ≤ '9' then some (c.toNat - '0'.toNat) else none

/-- Value of a nonempty digit string, most significant digit first. -/
def digitsVal : List Char → Nat → Option Nat
  | [], acc => some acc
  | c :: cs, acc =>
    match decDigit c with
    | some d => digitsVal cs (10 * acc + d)
    | none => none

/-- Leading whitespace characters removed from a character list. -/
def dropBlanks : List Char → List Char
  | [] => []
  | c :: cs =>
    if c = ' ' ∨ c = '\t' ∨ c = '\n' ∨ c = '\r' then dropBlanks cs
    else c :: cs

/-- Embeds Python int() on a string, as used to parse the chunk parameters
(src/app/api/tasks.py lines 435-437): surrounding whitespace is stripped,
then an optional sign followed by one or more decimal digits is accepted;
anything else raises ValueError, modelled as `none`.  (Underscore digit
grouping, accepted by Python, is not modelled; no claim depends on it.) -/
def pyInt (s : String) : Option Int :=
  match (dropBlanks (dropBlanks s.data).reverse).reverse with
  | [] => none
  | c :: rest =>
    if c = '-' then
      match rest with
      | [] => none
      | _ => (digitsVal rest 0).map (fun n => -(n : Int))
    else if c = '+' then
      match rest with
      | [] => none
      | _ => (digitsVal rest 0).map (fun n => (n : Int))
    else
      (digitsVal (c :: rest) 0).map (fun n => (n : Int))

/-- Embeds the parameter-parsing block of TaskAssetsImport.post
(src/app/api/tasks.py lines 434-439): chunk_index, byte_offset and
total_chunk_count are each passed through int(); a ValueError on any of
them raises ValidationError "Some parameters are not integers". -/
def parseChunkParams (chunkIndex byteOffset totalChunkCount : String) :
    Except String (Int × Int × Int) :=
  match pyInt chunkIndex, pyInt byteOffset, pyInt totalChunkCount with
  | some ci, some bo, some tc => Except.ok (ci, bo, tc)
  | _, _, _ => Except.error "Some parameters are not integers"

/-- Pending actions a controller can set on a task (the app.pending_actions
constants used at src/app/api/tasks.py lines 126, 130, 134, 465). -/
inductive PendingAction where
  | resize
  | importAction
  | cancel
  | restart
  | remove
deriving DecidableEq

/-- Worker-maintained task status (nodeodm.status_codes, used at line 464). -/
inductive TaskStatus where
  | queued
  | running
  | failed
  | completed
  | canceled
deriving DecidableEq

/-- The persisted fields of a task record that the handlers under
verification read or write, plus the observable state of its on-disk
storage.  `partialFlag` embeds the model field task.partial;
`storedImages` is the number of image files task.scan_images() finds in
the task's storage, and `storageSize` the byte total task.update_size()
computes from it. -/
structure Task where
  pendingAction : Option PendingAction
  status : Option TaskStatus
  partialFlag : Bool
  lastError : Option String
  imagesCount : Nat
  sizeBytes : Nat
  storedImages : Nat
  storageSize : Nat
deriving DecidableEq

/-- The persistent state the handlers touch: the task table keyed by primary
key, and the log of task ids submitted to worker_tasks.process_task.delay
(one list entry per delay call). -/
structure TaskStore where
  tasks : Nat → Option Task
  queue : List Nat

/-- Outcomes of the DRF exceptions the handlers raise: NotFound carries an
optional detail message, ValidationError its detail string. -/
inductive ApiError where
  | notFound (detail : Option String)
  | validationError (detail : String)
deriving DecidableEq

/-- Lookup of `self.queryset.get(pk=pk)` over the store. -/
def findTask (s : TaskStore) (pk : Nat) : Option Task :=
  s.tasks pk

/-- task.save(): persists record `t` under key `pk`. -/
def saveTask (tasks : Nat → Option Task) (pk : Nat) (t : Task) :
    Nat → Option Task :=
  fun i => if i = pk then some t else tasks i

/-- Embeds TaskViewSet.set_pending_action (src/app/api/tasks.py lines
107-122): NotFound when the task is absent (state unchanged); otherwise
set pending_action, set partial to False, clear last_error, save, and
enqueue the task id to the worker once.  Returns the post-state and the
outcome. -/
def setPendingAction (s : TaskStore) (pk : Nat) (a : PendingAction) :
    TaskStore × Except ApiError Unit :=
  match findTask s pk with
  | none => (s, Except.error (ApiError.notFound none))
  | some t =>
    let t2 : Task :=
      { t with pendingAction := some a, partialFlag := false, lastError := none }
    ({ tasks := saveTask s.tasks pk t2, queue := s.queue ++ [pk] },
      Except.ok ())

/-- TaskViewSet.cancel (src/app/api/tasks.py lines 124-126). -/
def cancelTask (s : TaskStore) (pk : Nat) : TaskStore × Except ApiError Unit :=
  setPendingAction s pk PendingAction.cancel

/-- TaskViewSet.restart (src/app/api/tasks.py lines 128-130). -/
def restartTask (s : TaskStore) (pk : Nat) : TaskStore × Except ApiError Unit :=
  setPendingAction s pk PendingAction.restart

/-- TaskViewSet.remove (src/app/api/tasks.py lines 132-134). -/
def removeTask (s : TaskStore) (pk : Nat) : TaskStore × Except ApiError Unit :=
  setPendingAction s pk PendingAction.remove

/-- Embeds TaskViewSet.commit (src/app/api/tasks.py lines 171-193):
NotFound when the task is absent; otherwise the in-memory record gets
partial = False and images_count = len(task.scan_images()); if fewer than
one image is present, ValidationError is raised before task.save(), so
nothing is persisted and nothing is enqueued; otherwise update_size()
recomputes the size, the record is saved and the id is enqueued once. -/
def commitTask (s : TaskStore) (pk : Nat) : TaskStore × Except ApiError Unit :=
  match findTask s pk with
  | none => (s, Except.error (ApiError.notFound none))
  | some t =>
    if t.storedImages < 1 then
      (s, Except.error (ApiError.validationError
        "You need to upload at least 1 file before commit"))
    else
      let t2 : Task :=
        { t with partialFlag := false, imagesCount := t.storedImages,
                 sizeBytes := t.storageSize }
      ({ tasks := saveTask s.tasks pk t2, queue := s.queue ++ [pk] },
        Except.ok ())

/-- What a filesystem path points at. -/
inductive FsNode where
  | file
  | dir
deriving DecidableEq

/-- Canonicalization of a path given as a list of segments relative to the
filesystem root: empty and dot segments vanish and a dot-dot segment
removes the previous segment (at the root it stays at the root, as POSIX
path resolution does). -/
def normalizeSegs (segs : List String) : List String :=
  segs.foldl
    (fun acc seg =>
      if seg = "." ∨ seg = "" then acc
      else if seg = ".." then acc.dropLast
      else acc ++ [seg])
    []

/-- Modelled from the spec: path_traversal_check lives in app/security.py,
which is not among the sources; section 4.1 (PathGuard) specifies that the
combination of root and requested path is canonicalized and the result
must stay lexically contained within the root, else the check fails (the
SuspiciousFileOperation caught at src/app/api/tasks.py line 397).  Section
9 mandates canonical-path-prefix comparison after resolving all relative
segments. -/
def path_traversal_check (p root : List String) : Except Unit (List String) :=
  let c := normalizeSegs p
  if (normalizeSegs root).isPrefixOf c then Except.ok c
  else Except.error ()

/-- Embeds TaskAssets.get (src/app/api/tasks.py lines 387-403): the
requested relative path is joined to the task's asset root and passed
through path_traversal_check; SuspiciousFileOperation becomes NotFound
"Asset does not exist" (lines 395-398), and a path that does not exist or
is a directory raises the same NotFound (lines 400-401).  `fs` is the
observable filesystem, keyed by canonical path. -/
def rawAssetEndpoint (fs : List String → Option FsNode)
    (root reqPath : List String) : Except ApiError (List String) :=
  match path_traversal_check (root ++ reqPath) root with
  | Except.error _ => Except.error (ApiError.notFound (some "Asset does not exist"))
  | Except.ok p =>
    match fs p with
    | some FsNode.file => Except.ok p
    | _ => Except.error (ApiError.notFound (some "Asset does not exist"))

/-- The headers of a single-file download response that the claims observe. -/
structure DownloadResp where
  streamed : Bool
  contentType : String
  contentDisposition : String
  contentLength : Option Nat
deriving DecidableEq

/-- Embeds download_file_response (src/app/api/tasks.py lines 316-340).
`mimeGuess` stands for mimetypes.guess_type(filename)[0] (an external
library call); `forceStream` for the truthiness of the _force_stream query
parameter.  The transfer is streamed (FileResponse) when filesize > 1e8 or
the flag is set, else buffered (HttpResponse); either way lines 332-334
then set Content-Type, Content-Disposition and Content-Length. -/
def download_file_response (mimeGuess : Option String) (fileName : String)
    (filesize : Nat) (forceStream : Bool) (dispo : String)
    (downloadFilename : Option String) : DownloadResp :=
  let dlName := downloadFilename.getD fileName
  let stream := decide (100000000 < filesize) || forceStream
  { streamed := stream
    contentType := mimeGuess.getD "application/zip"
    contentDisposition := dispo ++ "; filename=" ++ dlName
    contentLength := some filesize }

/-- Python truthiness of request.data.get of the url field: absent (None)
and the empty string are falsy. -/
def urlTruthy : Option String → Bool
  | none => false
  | some s => !(s == "")

/-- Embeds the import-source guards of TaskAssetsImport.post
(src/app/api/tasks.py lines 415-423): without a truthy url the file count
must be exactly 1, and with a truthy url it must be 0; otherwise a
ValidationError is raised. -/
def importSourceCheck (numFiles : Nat) (url : Option String) :
    Except ApiError Unit :=
  if urlTruthy url = false ∧ numFiles ≠ 1 then
    Except.error (ApiError.validationError
      "Cannot create task, you need to upload 1 file")
  else if urlTruthy url = true ∧ 0 < numFiles then
    Except.error (ApiError.validationError
      "Cannot create task, either specify a URL or upload 1 file.")
  else
    Except.ok ()

/-- A partial demo task carrying an old error, three stored images. -/
def demoTask : Task :=
  { pendingAction := none, status := some TaskStatus.failed,
    partialFlag := true, lastError := some "previous failure",
    imagesCount := 3, sizeBytes := 77, storedImages := 3, storageSize := 900 }

/-- A completed, already-committed task with one stored image. -/
def demoDoneTask : Task :=
  { pendingAction := none, status := some TaskStatus.completed,
    partialFlag := false, lastError := none,
    imagesCount := 1, sizeBytes := 50, storedImages := 1, storageSize := 50 }

/-- A partial task whose storage holds no images. -/
def demoEmptyTask : Task :=
  { pendingAction := none, status := some TaskStatus.queued,
    partialFlag := true, lastError := none,
    imagesCount := 0, sizeBytes := 0, storedImages := 0, storageSize := 0 }

/-- A store holding the three demo tasks under ids 1, 2 and 3. -/
def demoStore : TaskStore :=
  { tasks := fun i =>
      if i = 1 then some demoTask
      else if i = 2 then some demoDoneTask
      else if i = 3 then some demoEmptyTask
      else none
    queue := [] }

/-- An empty demo filesystem: every lookup misses. -/
def demoFs : List String → Option FsNode := fun _ => none

/-- C1: the claim states that writeChunk writes each chunk at the
client-supplied byteOffset with seek-then-write semantics, so any order of
delivery reassembles the original file.  The code opens the temp file with
mode ab, under which the seek never takes effect and every chunk is
appended; moreover the handler finalizes as soon as the chunk with index
totalChunks - 1 arrives.  Failing input: the original file [1, 2, 3, 4]
split into chunk 0 = [1, 2] at offset 0 and chunk 1 = [3, 4] at offset 2,
delivered in the order chunk 1, chunk 0: the upload finalizes right after
chunk 1 with content [3, 4], not [1, 2, 3, 4]; and the write of chunk 1
lands at offset 0 instead of offset 2, differing from the spec's
seek-then-write result. -/
theorem chunk_upload_append_mode_bug :
    uploadRunCode none [⟨1, 2, 2, [3, 4]⟩, ⟨0, 0, 2, [1, 2]⟩] = some [3, 4] ∧
    some [3, 4] ≠ some ([1, 2, 3, 4] : List Nat) ∧
    writeChunkCode none 1 2 [3, 4] ≠ seekWrite [] 2 [3, 4] ∧
    seekWrite [] 2 [3, 4] = [0, 0, 3, 4] := by
  decide

/-- C6: a session that already has a partial temp file (here the bytes of
the earlier chunks 0 and 1) and receives a chunk with index 0 discards the
old data before writing, so after restarting with chunks b0, b1, b2 of a
three-chunk upload the finalized file holds exactly the content written
after the restart. -/
theorem restart_chunk_zero_truncates (a0 a1 b0 b1 b2 : List Nat)
    (o0 o1 o2 : Int) :
    writeChunkCode (some (a0 ++ a1)) 0 o0 b0 = b0 ∧
    uploadRunCode (some (a0 ++ a1))
        [⟨0, o0, 3, b0⟩, ⟨1, o1, 3, b1⟩, ⟨2, o2, 3, b2⟩] =
      some (b0 ++ b1 ++ b2) := by
  constructor
  · simp [writeChunkCode]
  · simp [uploadRunCode, writeChunkCode]

/-- C3 counterexample: the claim states that a chunked request whose
chunkIndex is a negative value is rejected, but int() accepts the string
"-1" and the request proceeds with chunkIndex = -1. -/
theorem chunk_params_negative_not_rejected :
    parseChunkParams "-1" "0" "2" = Except.ok (-1, 0, 2) ∧ (-1 : Int) < 0 := by
  exact ⟨rfl, by decide⟩

/-- C3 amended: chunkIndex, byteOffset and totalChunks are validated only
to parse as integers (optional sign and digits); the request is rejected
with the "Some parameters are not integers" ValidationError exactly when
one of them does not parse as an integer, so negative integers pass the
validation. -/
theorem chunk_params_integer_check (a b c : String) :
    parseChunkParams a b c = Except.error "Some parameters are not integers" ↔
      (pyInt a = none ∨ pyInt b = none ∨ pyInt c = none) := by
  unfold parseChunkParams
  cases ha : pyInt a <;> cases hb : pyInt b <;> cases hc : pyInt c <;> simp

/-- Helper: set_pending_action on an absent task returns NotFound and the
unchanged store. -/
theorem setPendingAction_absent (s : TaskStore) (pk : Nat) (a : PendingAction)
    (h : findTask s pk = none) :
    setPendingAction s pk a = (s, Except.error (ApiError.notFound none)) := by
  simp [setPendingAction, h]

/-- Helper: set_pending_action on a present task succeeds, persists the
updated record and enqueues the id exactly once. -/
theorem setPendingAction_present (s : TaskStore) (pk : Nat) (a : PendingAction)
    (t : Task) (h : findTask s pk = some t) :
    (setPendingAction s pk a).2 = Except.ok () ∧
    findTask (setPendingAction s pk a).1 pk =
      some { t with pendingAction := some a, partialFlag := false,
                    lastError := none } ∧
    (setPendingAction s pk a).1.queue = s.queue ++ [pk] := by
  have h2 : s.tasks pk = some t := h
  simp [setPendingAction, findTask, saveTask, h2]

/-- C4: cancel, restart and remove fail with NotFound and change no state
when the task is absent; on an existing task each sets pendingAction to
CANCEL, RESTART or REMOVE respectively, sets partial to false, clears
lastError, persists the record, and appends the task id to the worker
queue exactly once — so every pendingAction transition clears lastError. -/
theorem pending_action_ops_spec (s : TaskStore) (pk : Nat) :
    (findTask s pk = none →
      cancelTask s pk = (s, Except.error (ApiError.notFound none)) ∧
      restartTask s pk = (s, Except.error (ApiError.notFound none)) ∧
      removeTask s pk = (s, Except.error (ApiError.notFound none))) ∧
    (∀ t : Task, findTask s pk = some t →
      ((cancelTask s pk).2 = Except.ok () ∧
        findTask (cancelTask s pk).1 pk =
          some { t with pendingAction := some PendingAction.cancel,
                        partialFlag := false, lastError := none } ∧
        (cancelTask s pk).1.queue = s.queue ++ [pk]) ∧
      ((restartTask s pk).2 = Except.ok () ∧
        findTask (restartTask s pk).1 pk =
          some { t with pendingAction := some PendingAction.restart,
                        partialFlag := false, lastError := none } ∧
        (restartTask s pk).1.queue = s.queue ++ [pk]) ∧
      ((removeTask s pk).2 = Except.ok () ∧
        findTask (removeTask s pk).1 pk =
          some { t with pendingAction := some PendingAction.remove,
                        partialFlag := false, lastError := none } ∧
        (removeTask s pk).1.queue = s.queue ++ [pk])) := by
  constructor
  · intro h
    exact ⟨setPendingAction_absent s pk _ h, setPendingAction_absent s pk _ h,
      setPendingAction_absent s pk _ h⟩
  · intro t h
    exact ⟨setPendingAction_present s pk _ t h,
      setPendingAction_present s pk _ t h,
      setPendingAction_present s pk _ t h⟩

/-- C4 witness: on the demo store, cancel of the absent id 5 is NotFound
with the store unchanged, and cancel of task 1 succeeds, persists the
cleared record and enqueues id 1 once. -/
theorem pending_action_ops_spec_witness :
    cancelTask demoStore 5 = (demoStore, Except.error (ApiError.notFound none)) ∧
    (cancelTask demoStore 1).2 = Except.ok () ∧
    findTask (cancelTask demoStore 1).1 1 =
      some { demoTask with pendingAction := some PendingAction.cancel,
                           partialFlag := false, lastError := none } ∧
    (cancelTask demoStore 1).1.queue = demoStore.queue ++ [1] := by
  refine ⟨((pending_action_ops_spec demoStore 5).1 rfl).1, ?_⟩
  exact ((pending_action_ops_spec demoStore 1).2 demoTask rfl).1

/-- C7: commit of an existing task whose storage holds zero images raises
ValidationError and returns the store unchanged: nothing is persisted and
nothing is enqueued. -/
theorem commit_zero_images_rejected (s : TaskStore) (pk : Nat) (t : Task)
    (h : findTask s pk = some t) (h0 : t.storedImages = 0) :
    commitTask s pk =
      (s, Except.error (ApiError.validationError
        "You need to upload at least 1 file before commit")) := by
  simp [commitTask, h, h0]

/-- C7 witness: committing demo task 3, which has zero stored images,
returns the ValidationError and the unchanged store. -/
theorem commit_zero_images_rejected_witness :
    commitTask demoStore 3 =
      (demoStore, Except.error (ApiError.validationError
        "You need to upload at least 1 file before commit")) :=
  commit_zero_images_rejected demoStore 3 demoEmptyTask rfl rfl

/-- C10: commit does not require the task to be partial: for any existing
task record with at least one scanned image — whatever its partial flag,
status, pendingAction or lastError — commit succeeds, persists the record
with partial = false, imagesCount and size recomputed from storage, and
enqueues the task id once. -/
theorem commit_ignores_partial_flag (s : TaskStore) (pk : Nat) (t : Task)
    (h : findTask s pk = some t) (h1 : 1 ≤ t.storedImages) :
    (commitTask s pk).2 = Except.ok () ∧
    findTask (commitTask s pk).1 pk =
      some { t with partialFlag := false, imagesCount := t.storedImages,
                    sizeBytes := t.storageSize } ∧
    (commitTask s pk).1.queue = s.queue ++ [pk] := by
  have h2 : s.tasks pk = some t := h
  have hlt : ¬ t.storedImages < 1 := by omega
  simp [commitTask, findTask, saveTask, h2, hlt]

/-- C10 witness: demo task 2 is completed and already committed
(partial = false), yet commit succeeds again, re-persists it and
re-enqueues id 2. -/
theorem commit_ignores_partial_flag_witness :
    (commitTask demoStore 2).2 = Except.ok () ∧
    findTask (commitTask demoStore 2).1 2 =
      some { demoDoneTask with partialFlag := false,
                               imagesCount := demoDoneTask.storedImages,
                               sizeBytes := demoDoneTask.storageSize } ∧
    (commitTask demoStore 2).1.queue = demoStore.queue ++ [2] :=
  commit_ignores_partial_flag demoStore 2 demoDoneTask rfl (by decide)

/-- C2: a raw-asset request whose canonicalized path escapes the task's
asset root yields exactly the NotFound outcome, with the same detail
"Asset does not exist", that a request for any genuinely absent asset
yields, so path violations are indistinguishable from missing files at
the boundary. -/
theorem raw_asset_escape_is_not_found (fs : List String → Option FsNode)
    (root esc missing : List String)
    (hesc : (normalizeSegs root).isPrefixOf (normalizeSegs (root ++ esc)) = false)
    (hmiss : fs (normalizeSegs (root ++ missing)) = none) :
    rawAssetEndpoint fs root esc =
      Except.error (ApiError.notFound (some "Asset does not exist")) ∧
    rawAssetEndpoint fs root esc = rawAssetEndpoint fs root missing := by
  have h1 : rawAssetEndpoint fs root esc =
      Except.error (ApiError.notFound (some "Asset does not exist")) := by
    simp [rawAssetEndpoint, path_traversal_check, hesc]
  have h2 : rawAssetEndpoint fs root missing =
      Except.error (ApiError.notFound (some "Asset does not exist")) := by
    unfold rawAssetEndpoint path_traversal_check
    by_cases hp :
        (normalizeSegs root).isPrefixOf (normalizeSegs (root ++ missing)) = true
    · simp [hp, hmiss]
    · simp [hp]
  exact ⟨h1, h1.trans h2.symm⟩

/-- C2 witness: on an empty filesystem with asset root data/assets, the
traversal request ../../etc/passwd and the plain missing file request
missing.txt produce the identical NotFound outcome. -/
theorem raw_asset_escape_is_not_found_witness :
    rawAssetEndpoint demoFs ["data", "assets"] ["..", "..", "etc", "passwd"] =
      Except.error (ApiError.notFound (some "Asset does not exist")) ∧
    rawAssetEndpoint demoFs ["data", "assets"] ["..", "..", "etc", "passwd"] =
      rawAssetEndpoint demoFs ["data", "assets"] ["missing.txt"] :=
  raw_asset_escape_is_not_found demoFs ["data", "assets"]
    ["..", "..", "etc", "passwd"] ["missing.txt"] (by decide) rfl

/-- C5 counterexample: the claim states Content-Length is omitted when the
transfer is streamed, but a 150,000,000-byte download is streamed and its
response still carries Content-Length 150,000,000 (set unconditionally at
src/app/api/tasks.py line 334). -/
theorem streamed_response_has_content_length :
    (download_file_response none "orthophoto.zip" 150000000 false
        "attachment" none).streamed = true ∧
    (download_file_response none "orthophoto.zip" 150000000 false
        "attachment" none).contentLength = some 150000000 := by
  constructor <;> rfl

/-- C5 amended: for every single-file download response the Content-Length
header is set to the file size, in the buffered mode and in the streamed
mode alike. -/
theorem content_length_set_in_both_modes (mg : Option String) (fn : String)
    (fsz : Nat) (fstr : Bool) (dispo : String) (dl : Option String) :
    (download_file_response mg fn fsz fstr dispo dl).contentLength =
      some fsz := rfl

/-- C9: the transfer mode of a single-file download is streamed exactly
when the file size exceeds 100,000,000 bytes or the force-stream flag is
set; in particular a 150,000,000-byte file is streamed and a 1,000-byte
file with the flag unset is buffered. -/
theorem choose_transfer_mode_spec (mg : Option String) (fn : String)
    (fsz : Nat) (fstr : Bool) (dispo : String) (dl : Option String) :
    ((download_file_response mg fn fsz fstr dispo dl).streamed = true ↔
      (100000000 < fsz ∨ fstr = true)) ∧
    (download_file_response none "a.tif" 150000000 false
        "attachment" none).streamed = true ∧
    (download_file_response none "a.tif" 1000 false
        "attachment" none).streamed = false := by
  refine ⟨?_, rfl, rfl⟩
  simp [download_file_response]

/-- C8: an import request proceeds past the source checks exactly when it
supplies one source: a truthy URL with no uploaded file, or no URL with
exactly one uploaded file; both sources together fail with
ValidationError, and so does neither (no URL with a file count other than
one). -/
theorem import_source_exclusivity (numFiles : Nat) (url : Option String) :
    importSourceCheck numFiles url = Except.ok () ↔
      ((urlTruthy url = true ∧ numFiles = 0) ∨
       (urlTruthy url = false ∧ numFiles = 1)) := by
  cases hu : urlTruthy url
  · by_cases hn : numFiles = 1
    · subst hn; simp [importSourceCheck, hu]
    · simp [importSourceCheck, hu, hn]
  · by_cases hn : numFiles = 0
    · subst hn; simp [importSourceCheck, hu]
    · simp [importSourceCheck, hu, hn, Nat.pos_of_ne_zero hn]

end WebODM
